import Mathlib

/-!
Verification of the configuration-resolution and authentication-gate
subsystem of the aab_react_express server.

The definitions below are a shallow embedding of:
  * `server/src/config/config-manager.ts` — `deepMerge`, `loadConfiguration`,
    `getConfiguration`, `reloadConfiguration`, `validateConfiguration`;
  * `server/src/api/middleware/auth.ts` — `requireAuth` and the
    `/auth/logout` route handler installed by `createAuthRoutes`.

JavaScript values flowing through `deepMerge` are modelled by `JsonValue`
(JSON numbers are modelled as integers; no claim depends on fractional
values).  Objects are association lists in insertion order, matching the
enumeration order of `for (const key in source)` and the key order
preserved by `{ ...target }` and `result[key] = v` in V8.
-/

set_option autoImplicit false

namespace AabReactExpress

/-- A JSON value as produced by `JSON.parse`. -/
inductive JsonValue where
  | null
  | bool (b : Bool)
  | num (n : Int)
  | str (s : String)
  | arr (elems : List JsonValue)
  | obj (fields : List (String × JsonValue))

/-- `o[k]` on a JavaScript object: the value stored at key `k`, `none`
when the key is absent (JS `undefined`). -/
def getField : List (String × JsonValue) → String → Option JsonValue
  | [], _ => none
  | (k', v') :: rest, k => if k' = k then some v' else getField rest k

/-- `o[k] = v` on a JavaScript object: replaces the value at an existing
key in place (keys keep their insertion position) or appends a new key. -/
def setField : List (String × JsonValue) → String → JsonValue → List (String × JsonValue)
  | [], k, v => [(k, v)]
  | (k', v') :: rest, k, v => if k' = k then (k', v) :: rest else (k', v') :: setField rest k v

/-- The fields of a value when it is a mergeable object, and `[]`
otherwise (spreading a non-object with `{ ...target }` yields `{}`,
and property reads on it yield `undefined`). -/
def fieldsOf : JsonValue → List (String × JsonValue)
  | JsonValue.obj fields => fields
  | _ => []

mutual

/-- Embeds `ConfigManager.deepMerge(target, source)`:
`source === null` returns `target`; a non-object or array `source` is
returned outright; otherwise the result starts as `{ ...target }` and each
key of `source` is copied over, recursing when both sides hold plain
(non-null, non-array) objects. -/
def deepMerge (target source : JsonValue) : JsonValue :=
  match source with
  | JsonValue.null => target
  | JsonValue.obj sfields => JsonValue.obj (mergeLoop (fieldsOf target) (fieldsOf target) sfields)
  | s => s
termination_by (sizeOf source, 0)
decreasing_by all_goals (simp_wf; try omega)

/-- The per-key decision of the `deepMerge` loop: given `tval =
target[key]` and `sv = source[key]`, recurse when both are plain
(non-null, non-array) objects, otherwise take the source value. -/
def mergeVal (tval : Option JsonValue) (sv : JsonValue) : JsonValue :=
  match sv, tval with
  | JsonValue.obj svf, some (JsonValue.obj tvf) =>
    deepMerge (JsonValue.obj tvf) (JsonValue.obj svf)
  | _, _ => sv
termination_by (sizeOf sv, 1)
decreasing_by all_goals (simp_wf; try omega)

/-- The `for (const key in source)` loop of `deepMerge`: `tfields` is
the original target's fields (read by `target[key]`), `acc` the result
object being built (started as `{ ...target }` and written by
`result[key] = ...`). -/
def mergeLoop (tfields acc : List (String × JsonValue))
    (rest : List (String × JsonValue)) : List (String × JsonValue) :=
  match rest with
  | [] => acc
  | (k, sv) :: rest' =>
    mergeLoop tfields (setField acc k (mergeVal (getField tfields k) sv)) rest'
termination_by (sizeOf rest, 2)
decreasing_by all_goals (simp_wf; try omega)

end

/-! ### The typed configuration model (`ApplicationConfiguration` interface) -/

/-- `server` section of `ApplicationConfiguration`.  `port` is a JS
number: `some n` is an integer value, `none` models the IEEE NaN
produced by a failed `parseInt` (no claim involves fractional ports). -/
structure ServerConfig where
  port : Option Int
  frontendDist : String
  nodeEnv : String
deriving DecidableEq

/-- `cors` section of `ApplicationConfiguration`. -/
structure CorsConfig where
  origin : String
  methods : List String
  allowedHeaders : List String
  credentials : Bool
deriving DecidableEq

/-- `session` section of `ApplicationConfiguration`. -/
structure SessionConfig where
  secret : String
  resave : Bool
  saveUninitialized : Bool
  cookieSecure : Bool
deriving DecidableEq

/-- `auth.oidc` section of `ApplicationConfiguration`. -/
structure OidcConfig where
  issuer : String
  clientID : String
  clientSecret : String
  callbackURL : String
  scope : String
deriving DecidableEq

/-- `auth` section of `ApplicationConfiguration`. -/
structure AuthConfig where
  disabled : Bool
  oidc : OidcConfig
deriving DecidableEq

/-- The resolved `ApplicationConfiguration` interface from
`config-manager.ts`. -/
structure ApplicationConfiguration where
  server : ServerConfig
  cors : CorsConfig
  session : SessionConfig
  auth : AuthConfig
deriving DecidableEq

/-- The slice of `process.env` read by `config-manager.ts` (and, in the
repository's documentation, the three discovery-era OIDC URL variables).
`none` = variable unset, `some s` = variable set to the string `s`. -/
structure Env where
  PORT : Option String
  FRONTEND_DIST : Option String
  NODE_ENV : Option String
  CORS_ORIGIN : Option String
  SESSION_SECRET : Option String
  DISABLE_AUTH : Option String
  OIDC_ISSUER : Option String
  OIDC_AUTHORIZATION_URL : Option String
  OIDC_TOKEN_URL : Option String
  OIDC_USERINFO_URL : Option String
  OIDC_CLIENT_ID : Option String
  OIDC_CLIENT_SECRET : Option String
  OIDC_CALLBACK_URL : Option String
deriving DecidableEq

/-- The environment with every variable unset. -/
def Env.empty : Env :=
  { PORT := none, FRONTEND_DIST := none, NODE_ENV := none, CORS_ORIGIN := none
    SESSION_SECRET := none, DISABLE_AUTH := none, OIDC_ISSUER := none
    OIDC_AUTHORIZATION_URL := none, OIDC_TOKEN_URL := none, OIDC_USERINFO_URL := none
    OIDC_CLIENT_ID := none, OIDC_CLIENT_SECRET := none, OIDC_CALLBACK_URL := none }

/-- Decimal value of a list of ASCII digits. -/
def decDigitsValue (ds : List Char) : Nat :=
  ds.foldl (fun a c => a * 10 + (c.toNat - 48)) 0

/-- JavaScript `parseInt(s, 10)`: skip leading whitespace, read an
optional sign and then the longest run of decimal digits, ignoring any
trailing characters; `none` models the NaN returned when no digit is
found. -/
def parseIntBase10 (s : String) : Option Int :=
  let cs := s.data.dropWhile Char.isWhitespace
  match cs with
  | '-' :: rest =>
    let ds := rest.takeWhile Char.isDigit
    if ds.isEmpty then none else some (-(decDigitsValue ds : Int))
  | '+' :: rest =>
    let ds := rest.takeWhile Char.isDigit
    if ds.isEmpty then none else some ((decDigitsValue ds : Int))
  | rest =>
    let ds := rest.takeWhile Char.isDigit
    if ds.isEmpty then none else some ((decDigitsValue ds : Int))

/-- JavaScript `process.env.X || fallback` for string fields: the
environment value wins exactly when the variable is set to a non-empty
(truthy) string. -/
def envOr (v : Option String) (fallback : String) : String :=
  match v with
  | some s => if s.isEmpty then fallback else s
  | none => fallback

/-- The environment-variable override layer of `loadConfiguration`
(config-manager.ts lines 122–150): builds the resolved configuration
from the document layer (`base` = base file after the optional dev
overlay merge) and the process environment. -/
def resolveWithEnv (e : Env) (base : ApplicationConfiguration) : ApplicationConfiguration :=
  { server :=
      { -- `process.env.PORT ? parseInt(process.env.PORT, 10) : baseConfig.server.port`
        port :=
          match e.PORT with
          | some s => if s.isEmpty then base.server.port else parseIntBase10 s
          | none => base.server.port
        frontendDist := envOr e.FRONTEND_DIST base.server.frontendDist
        nodeEnv := envOr e.NODE_ENV base.server.nodeEnv }
    cors :=
      { origin := envOr e.CORS_ORIGIN base.cors.origin
        methods := base.cors.methods
        allowedHeaders := base.cors.allowedHeaders
        credentials := base.cors.credentials }
    session :=
      { secret := envOr e.SESSION_SECRET base.session.secret
        resave := base.session.resave
        saveUninitialized := base.session.saveUninitialized
        -- `process.env.NODE_ENV === "production" || baseConfig.session.cookieSecure`
        cookieSecure := (e.NODE_ENV == some "production") || base.session.cookieSecure }
    auth :=
      { -- `process.env.DISABLE_AUTH === "true" || process.env.DISABLE_AUTH === "1"
        --  || baseConfig.auth.disabled`
        disabled := (e.DISABLE_AUTH == some "true") || (e.DISABLE_AUTH == some "1")
          || base.auth.disabled
        oidc :=
          { issuer := envOr e.OIDC_ISSUER base.auth.oidc.issuer
            clientID := envOr e.OIDC_CLIENT_ID base.auth.oidc.clientID
            clientSecret := envOr e.OIDC_CLIENT_SECRET base.auth.oidc.clientSecret
            callbackURL := envOr e.OIDC_CALLBACK_URL base.auth.oidc.callbackURL
            scope := base.auth.oidc.scope } } }

/-- The test `!config.server.port || config.server.port <= 0` from
`validateConfiguration`: `!NaN` and `!0` are `true` in JS, and
`NaN <= 0` is `false`, so the port is rejected exactly when it is NaN,
zero, or negative. -/
def portRejected : Option Int → Bool
  | none => true
  | some n => (n == 0) || decide (n ≤ 0)

/-- Embeds `ConfigManager.validateConfiguration` (the pure invariant
checks on an already-obtained configuration; diagnostics are console
output only). -/
def validateConfiguration (config : ApplicationConfiguration) : Bool :=
  if portRejected config.server.port then false
  else if config.session.secret == "" || config.session.secret.length < 16 then false
  else if !config.auth.disabled
      && (config.auth.oidc.clientID == "" || config.auth.oidc.clientSecret == "") then false
  else true

/-! ### The stateful manager (caching, loading, validation entry point) -/

/-- The mutable `configuration` field of the `ConfigManager` singleton:
`none` until the first successful load. -/
structure ManagerState where
  cached : Option ApplicationConfiguration
deriving DecidableEq

/-- What one call into the manager observes of the outside world.
`baseResult` is the outcome of `readFileSync` + `JSON.parse` on
`server.config.json`, already combined with the optional
`server.config.dev.json` overlay by `deepMerge` (a missing overlay is
skipped; a malformed one logs a warning and is skipped): `some c` when
this yields a document of the `ApplicationConfiguration` shape, `none`
when reading or parsing the base document throws (file missing or
unparsable), in which case `loadConfiguration` rethrows a
`Configuration loading failed` error. -/
structure LoadInputs where
  env : Env
  baseResult : Option ApplicationConfiguration
deriving DecidableEq

/-- Embeds `ConfigManager.loadConfiguration`: return the cached snapshot
if present; otherwise resolve the three layers against the current world
and cache the result, or throw (`Except.error`) when the base document
cannot be read or parsed. -/
def loadConfigurationSt (w : LoadInputs) (st : ManagerState) :
    Except Unit (ApplicationConfiguration × ManagerState) :=
  match st.cached with
  | some c => Except.ok (c, st)
  | none =>
    match w.baseResult with
    | none => Except.error ()
    | some baseConfig =>
      let resolved := resolveWithEnv w.env baseConfig
      Except.ok (resolved, { cached := some resolved })

/-- Embeds `ConfigManager.getConfiguration`: loads if not already
loaded, else returns the cached snapshot. -/
def getConfigurationSt (w : LoadInputs) (st : ManagerState) :
    Except Unit (ApplicationConfiguration × ManagerState) :=
  match st.cached with
  | none => loadConfigurationSt w st
  | some c => Except.ok (c, st)

/-- Embeds `ConfigManager.reloadConfiguration`: clears the cache and
loads again. -/
def reloadConfigurationSt (w : LoadInputs) (_st : ManagerState) :
    Except Unit (ApplicationConfiguration × ManagerState) :=
  loadConfigurationSt w { cached := none }

/-- Embeds `ConfigManager.validateConfiguration` as called on the
manager: it first obtains a configuration via `getConfiguration()`
(which may load, and hence may throw) and then runs the pure invariant
checks on it. -/
def validateConfigurationSt (w : LoadInputs) (st : ManagerState) :
    Except Unit (Bool × ManagerState) :=
  match getConfigurationSt w st with
  | Except.error e => Except.error e
  | Except.ok (c, st') => Except.ok (validateConfiguration c, st')

/-! ### The authentication gate (`auth.ts`: `requireAuth`) -/

/-- The part of an Express request that `requireAuth` inspects:
`path` is `req.path` as this middleware observes it, and
`authenticated` is the result of `req.isAuthenticated()` (whether the
session references an authenticated principal). -/
structure Request where
  path : String
  authenticated : Bool
deriving DecidableEq

/-- The observable outcome of running `requireAuth` on one request.
`respondJson status msg` embeds `res.status(status).json({ error: msg })`;
`redirect status loc` embeds `res.redirect(loc)`, which sends status 302
by default in Express; `next` is a call to the next handler. -/
inductive GateResult where
  | next
  | respondJson (status : Nat) (errorMessage : String)
  | redirect (status : Nat) (location : String)
deriving DecidableEq

/-- JavaScript `req.path.startsWith("/api/")`: the path's character
sequence begins with the characters of `"/api/"`. -/
def isApiPath (p : String) : Bool :=
  "/api/".data.isPrefixOf p.data

/-- Embeds `requireAuth` from `auth.ts` (lines 97–115).  `authDisabled`
is `isAuthDisabled()`, i.e. the resolved `auth.disabled` flag:
when it is false the gate is in Enabled mode. -/
def requireAuth (authDisabled : Bool) (req : Request) : GateResult :=
  if authDisabled then GateResult.next
  else if req.authenticated then GateResult.next
  else if isApiPath req.path then
    GateResult.respondJson 401 "Authentication required"
  else GateResult.redirect 302 "/auth/login"

/-! ### The `/auth/logout` route handler (Enabled mode) -/

/-- Modelled from the spec: `client.endSessionURL(postLogoutRedirectURI)`
of the external OIDC client library "produces a provider logout URL only
if the discovered metadata advertised an end-session endpoint"; the
produced URL targets the provider's end-session endpoint and carries the
post-logout redirect URI. -/
def endSessionUrl (endSessionEndpoint : String) (postLogoutRedirectUri : String) : String :=
  endSessionEndpoint ++ "?post_logout_redirect_uri=" ++ postLogoutRedirectUri

/-- The observable outcome of the Enabled-mode `GET /auth/logout`
handler: the local session is always destroyed (`req.logout` +
`req.session.destroy` run before any response), a destruction error is
only logged, and the response is a redirect (`res.redirect`, status 302
by default). -/
structure LogoutOutcome where
  sessionDestroyed : Bool
  destroyErrorLogged : Bool
  status : Nat
  location : String
deriving DecidableEq

/-- Embeds the `GET /auth/logout` handler installed by
`createAuthRoutes` in Enabled mode (auth.ts lines 157–188).
`clientAvailable` is whether both `global.oidcClient` and
`global.oidcIssuer` are set; `endSessionEndpoint` is
`issuer.metadata.end_session_endpoint` (`none` when the discovered
metadata does not advertise one); `destroyErr` is whether
`req.session.destroy` reported a session-store error; `protocol` and
`host` are `req.protocol` and `req.get("host")`. -/
def logoutHandler (clientAvailable : Bool) (endSessionEndpoint : Option String)
    (destroyErr : Bool) (protocol host : String) : LogoutOutcome :=
  let postLogoutUri := protocol ++ "://" ++ host ++ "/auth/logged-out"
  match clientAvailable, endSessionEndpoint with
  | true, some ep =>
    { sessionDestroyed := true
      destroyErrorLogged := destroyErr
      status := 302
      location := endSessionUrl ep postLogoutUri }
  | _, _ =>
    { sessionDestroyed := true
      destroyErrorLogged := destroyErr
      status := 302
      location := "/auth/login" }

/-! ### Concrete documents and environments used in witnesses and
counterexamples -/

/-- A well-typed document that passes every validation invariant. -/
def cfgValid : ApplicationConfiguration :=
  { server := { port := some 8324, frontendDist := "../frontend", nodeEnv := "development" }
    cors := { origin := "http://localhost:5173", methods := ["GET", "POST", "PUT", "DELETE"]
              allowedHeaders := ["Content-Type", "Authorization"], credentials := true }
    session := { secret := "0123456789abcdefXYZ", resave := false
                 saveUninitialized := false, cookieSecure := false }
    auth := { disabled := false
              oidc := { issuer := "https://issuer.example.com"
                        clientID := "client-id", clientSecret := "client-secret-value"
                        callbackURL := "http://localhost:8324/auth/callback"
                        scope := "openid profile email" } } }

/-- A document whose `auth.disabled` is `true`. -/
def cfgDisabledTrue : ApplicationConfiguration :=
  { cfgValid with auth := { cfgValid.auth with disabled := true } }

/-- A document declaring production mode while explicitly setting
`session.cookieSecure` to `false`. -/
def cfgProdInsecure : ApplicationConfiguration :=
  { cfgValid with
      server := { cfgValid.server with nodeEnv := "production" }
      session := { cfgValid.session with cookieSecure := false } }

/-- An environment whose only set variable is `DISABLE_AUTH=false`. -/
def envDisableAuthFalse : Env :=
  { Env.empty with DISABLE_AUTH := some "false" }

/-- A document with `auth.disabled = true` and both OIDC credentials
empty. -/
def cfgDisabledNoCreds : ApplicationConfiguration :=
  { cfgValid with
      auth := { disabled := true
                oidc := { cfgValid.auth.oidc with clientID := "", clientSecret := "" } } }

/-- A document with auth enabled and an empty `clientID`. -/
def cfgNoClientID : ApplicationConfiguration :=
  { cfgValid with
      auth := { cfgValid.auth with
                  oidc := { cfgValid.auth.oidc with clientID := "" } } }

/-! ### Association-list lemmas for the deep merge -/

theorem getField_setField_self (l : List (String × JsonValue)) (k : String) (v : JsonValue) :
    getField (setField l k v) k = some v := by
  induction l with
  | nil => simp [setField, getField]
  | cons hd tl ih =>
    obtain ⟨k', v'⟩ := hd
    by_cases h : k' = k
    · subst h
      simp [setField, getField]
    · simp [setField, getField, h, ih]

theorem getField_setField_ne (l : List (String × JsonValue)) (k k' : String) (v : JsonValue)
    (h : k ≠ k') : getField (setField l k v) k' = getField l k' := by
  induction l with
  | nil => simp [setField, getField, h]
  | cons hd tl ih =>
    obtain ⟨k₀, v₀⟩ := hd
    by_cases h₀ : k₀ = k
    · subst h₀
      simp [setField, getField, h]
    · simp [setField, getField, h₀, ih]

theorem getField_eq_none_of_not_mem (l : List (String × JsonValue)) (k : String)
    (h : k ∉ l.map Prod.fst) : getField l k = none := by
  induction l with
  | nil => simp [getField]
  | cons hd tl ih =>
    obtain ⟨k₀, v₀⟩ := hd
    simp only [List.map_cons, List.mem_cons] at h
    push_neg at h
    have hk : ¬k₀ = k := fun hh => h.1 hh.symm
    simp [getField, hk, ih h.2]

theorem mergeLoop_getField_none (tf : List (String × JsonValue)) (k : String)
    (sf acc : List (String × JsonValue)) (h : getField sf k = none) :
    getField (mergeLoop tf acc sf) k = getField acc k := by
  induction sf generalizing acc with
  | nil => simp [mergeLoop]
  | cons hd rest ih =>
    obtain ⟨k₀, sv₀⟩ := hd
    by_cases h₀ : k₀ = k
    · subst h₀
      simp [getField] at h
    · simp only [getField, if_neg h₀] at h
      rw [mergeLoop, ih _ h, getField_setField_ne _ _ _ _ h₀]

theorem mergeLoop_getField_some (tf : List (String × JsonValue)) (k : String)
    (sf acc : List (String × JsonValue)) (sv : JsonValue)
    (hnd : (sf.map Prod.fst).Nodup) (h : getField sf k = some sv) :
    getField (mergeLoop tf acc sf) k = some (mergeVal (getField tf k) sv) := by
  induction sf generalizing acc with
  | nil => simp [getField] at h
  | cons hd rest ih =>
    obtain ⟨k₀, sv₀⟩ := hd
    simp only [List.map_cons, List.nodup_cons] at hnd
    by_cases h₀ : k₀ = k
    · subst h₀
      have hsv : sv₀ = sv := by simpa [getField] using h
      subst hsv
      rw [mergeLoop]
      rw [mergeLoop_getField_none tf k₀ rest _
        (getField_eq_none_of_not_mem rest k₀ hnd.1)]
      rw [getField_setField_self]
    · simp only [getField, if_neg h₀] at h
      rw [mergeLoop]
      exact ih _ hnd.2 h

/-! ### Claims -/

/-- Claim C1: in Enabled mode (`auth.disabled = false`), for every
request without a valid authenticated session, `requireAuth` responds
with status 401 and a JSON error body when the request path is under the
API prefix, responds with a 302 redirect to `/auth/login` for every
other path, and never calls the next handler. -/
theorem claim_C1_auth_gate (req : Request) (hA : req.authenticated = false) :
    (isApiPath req.path = true →
      requireAuth false req = GateResult.respondJson 401 "Authentication required")
    ∧ (isApiPath req.path = false →
      requireAuth false req = GateResult.redirect 302 "/auth/login")
    ∧ requireAuth false req ≠ GateResult.next := by
  refine ⟨?_, ?_, ?_⟩
  · intro hp
    simp [requireAuth, hA, hp]
  · intro hp
    simp [requireAuth, hA, hp]
  · cases hp : isApiPath req.path <;> simp [requireAuth, hA, hp]

/-- Witness for C1: an unauthenticated request to `/api/users` is
answered 401 with the JSON error body, and an unauthenticated request to
`/dashboard` is 302-redirected to `/auth/login`. -/
theorem claim_C1_auth_gate_witness :
    requireAuth false { path := "/api/users", authenticated := false }
      = GateResult.respondJson 401 "Authentication required"
    ∧ requireAuth false { path := "/dashboard", authenticated := false }
      = GateResult.redirect 302 "/auth/login" :=
  ⟨(claim_C1_auth_gate { path := "/api/users", authenticated := false } rfl).1 (by decide),
   (claim_C1_auth_gate { path := "/dashboard", authenticated := false } rfl).2.1 (by decide)⟩

/-- Counterexample to C2 as stated: `DISABLE_AUTH` is set to the
non-empty string `"false"` (which is not `"true"` or `"1"`, so it does
not parse as true), yet the resolved `auth.disabled` is not determined
by the environment value: against a base document with
`auth.disabled = true` it resolves to `true`, against one with
`auth.disabled = false` it resolves to `false` — the document layers
decide the field, contradicting "regardless of the values supplied by
the base document or the local-override document". -/
theorem claim_C2_env_override_counterexample :
    envDisableAuthFalse.DISABLE_AUTH = some "false"
    ∧ ("false" = "" → False)
    ∧ ("false" = "true" → False)
    ∧ ("false" = "1" → False)
    ∧ (resolveWithEnv envDisableAuthFalse cfgDisabledTrue).auth.disabled = true
    ∧ (resolveWithEnv envDisableAuthFalse cfgValid).auth.disabled = false := by
  refine ⟨rfl, by decide, by decide, by decide, by decide, by decide⟩

/-- Claim C2 (amended): `loadConfiguration` reads only ten environment
variables (`OIDC_AUTHORIZATION_URL`, `OIDC_TOKEN_URL` and
`OIDC_USERINFO_URL` have no corresponding field in the resolved
configuration and are ignored).  For the nine string-valued variables,
a set and non-empty value wins over the document layers; for `PORT` the
winning value is `parseInt(value, 10)`; `DISABLE_AUTH` forces
`auth.disabled` to `true` when set to `"true"` or `"1"`, and with any
other value the document layers' flag prevails. -/
theorem claim_C2_env_override_amended (e : Env) (b : ApplicationConfiguration) (s : String)
    (hs : s ≠ "") :
    (e.PORT = some s → (resolveWithEnv e b).server.port = parseIntBase10 s)
    ∧ (e.FRONTEND_DIST = some s → (resolveWithEnv e b).server.frontendDist = s)
    ∧ (e.NODE_ENV = some s → (resolveWithEnv e b).server.nodeEnv = s)
    ∧ (e.CORS_ORIGIN = some s → (resolveWithEnv e b).cors.origin = s)
    ∧ (e.SESSION_SECRET = some s → (resolveWithEnv e b).session.secret = s)
    ∧ (e.OIDC_ISSUER = some s → (resolveWithEnv e b).auth.oidc.issuer = s)
    ∧ (e.OIDC_CLIENT_ID = some s → (resolveWithEnv e b).auth.oidc.clientID = s)
    ∧ (e.OIDC_CLIENT_SECRET = some s → (resolveWithEnv e b).auth.oidc.clientSecret = s)
    ∧ (e.OIDC_CALLBACK_URL = some s → (resolveWithEnv e b).auth.oidc.callbackURL = s)
    ∧ ((e.DISABLE_AUTH = some "true" ∨ e.DISABLE_AUTH = some "1") →
        (resolveWithEnv e b).auth.disabled = true)
    ∧ (∀ s', e.DISABLE_AUTH = some s' → s' ≠ "true" → s' ≠ "1" →
        (resolveWithEnv e b).auth.disabled = b.auth.disabled)
    ∧ (∀ v₁ v₂ v₃ : Option String,
        resolveWithEnv
          { e with OIDC_AUTHORIZATION_URL := v₁, OIDC_TOKEN_URL := v₂, OIDC_USERINFO_URL := v₃ } b
          = resolveWithEnv e b) := by
  have hempty : s.isEmpty = false := by
    cases hh : s.isEmpty
    · rfl
    · exact absurd (String.isEmpty_iff s |>.mp hh) hs
  refine ⟨?_, ?_, ?_, ?_, ?_, ?_, ?_, ?_, ?_, ?_, ?_, ?_⟩
  · intro h; simp [resolveWithEnv, h, hempty]
  · intro h; simp [resolveWithEnv, envOr, h, hempty]
  · intro h; simp [resolveWithEnv, envOr, h, hempty]
  · intro h; simp [resolveWithEnv, envOr, h, hempty]
  · intro h; simp [resolveWithEnv, envOr, h, hempty]
  · intro h; simp [resolveWithEnv, envOr, h, hempty]
  · intro h; simp [resolveWithEnv, envOr, h, hempty]
  · intro h; simp [resolveWithEnv, envOr, h, hempty]
  · intro h; simp [resolveWithEnv, envOr, h, hempty]
  · intro h; rcases h with h | h <;> simp [resolveWithEnv, h]
  · intro s' h ht h1
    have h2 : (e.DISABLE_AUTH == some "true") = false := by simp [h, ht]
    have h3 : (e.DISABLE_AUTH == some "1") = false := by simp [h, h1]
    simp [resolveWithEnv, h2, h3]
  · intro v₁ v₂ v₃
    rfl

/-- Witness for the amended C2: with `PORT=4000` and
`DISABLE_AUTH=false` set, `server.port` resolves to
`parseInt("4000", 10)` while `auth.disabled` keeps the base document's
flag. -/
theorem claim_C2_env_override_amended_witness :
    (resolveWithEnv { Env.empty with PORT := some "4000", DISABLE_AUTH := some "false" }
        cfgValid).server.port = parseIntBase10 "4000"
    ∧ (resolveWithEnv { Env.empty with PORT := some "4000", DISABLE_AUTH := some "false" }
        cfgValid).auth.disabled = cfgValid.auth.disabled :=
  ⟨(claim_C2_env_override_amended
      { Env.empty with PORT := some "4000", DISABLE_AUTH := some "false" } cfgValid "4000"
      (by decide)).1 rfl,
   (claim_C2_env_override_amended
      { Env.empty with PORT := some "4000", DISABLE_AUTH := some "false" } cfgValid "4000"
      (by decide)).2.2.2.2.2.2.2.2.2.2.1 "false" rfl (by decide) (by decide)⟩

/-- Counterexample to C3 as stated: with no environment variables set
and a base document declaring `nodeEnv = "production"` and
`cookieSecure = false`, the resolved environment mode is production yet
`session.cookieSecure` stays `false` (the forcing keys off
`process.env.NODE_ENV`, not the resolved mode). -/
theorem claim_C3_production_cookie_counterexample :
    (resolveWithEnv Env.empty cfgProdInsecure).server.nodeEnv = "production"
    ∧ (resolveWithEnv Env.empty cfgProdInsecure).session.cookieSecure = false := by
  refine ⟨rfl, by decide⟩

/-- Claim C3 (amended): `session.cookieSecure` is forced `true`
whenever the `NODE_ENV` environment variable is set to exactly
`"production"`, regardless of what the base or override documents
declared; when production mode comes only from the documents, the
documents' `cookieSecure` value is kept. -/
theorem claim_C3_production_cookie_amended (e : Env) (b : ApplicationConfiguration)
    (h : e.NODE_ENV = some "production") :
    (resolveWithEnv e b).session.cookieSecure = true := by
  simp [resolveWithEnv, h]

/-- Witness for the amended C3: `NODE_ENV=production` in the
environment forces `cookieSecure` even over a document that sets it
false. -/
theorem claim_C3_production_cookie_amended_witness :
    (resolveWithEnv { Env.empty with NODE_ENV := some "production" }
      cfgProdInsecure).session.cookieSecure = true :=
  claim_C3_production_cookie_amended { Env.empty with NODE_ENV := some "production" }
    cfgProdInsecure rfl

/-- Claim C4: `deepMerge` recurses key-by-key when both sides hold
nested mapping values, otherwise the override value wins wholesale
(arrays are replaced, never concatenated), keys present only in the
base are retained, and the documented `auth.oidc` example merges as
stated. -/
theorem claim_C4_deep_merge :
    (∀ (t : JsonValue) (xs : List JsonValue), deepMerge t (JsonValue.arr xs) = JsonValue.arr xs)
    ∧ (∀ (t : JsonValue) (s : String), deepMerge t (JsonValue.str s) = JsonValue.str s)
    ∧ (∀ (t : JsonValue) (n : Int), deepMerge t (JsonValue.num n) = JsonValue.num n)
    ∧ (∀ (t : JsonValue) (b : Bool), deepMerge t (JsonValue.bool b) = JsonValue.bool b)
    ∧ (∀ (tf sf : List (String × JsonValue)) (k : String) (v : JsonValue),
        getField sf k = none → getField tf k = some v →
        getField (fieldsOf (deepMerge (JsonValue.obj tf) (JsonValue.obj sf))) k = some v)
    ∧ (∀ (tf sf tkf skf : List (String × JsonValue)) (k : String),
        (sf.map Prod.fst).Nodup →
        getField tf k = some (JsonValue.obj tkf) →
        getField sf k = some (JsonValue.obj skf) →
        getField (fieldsOf (deepMerge (JsonValue.obj tf) (JsonValue.obj sf))) k
          = some (deepMerge (JsonValue.obj tkf) (JsonValue.obj skf)))
    ∧ (∀ (tf sf : List (String × JsonValue)) (k : String) (sv : JsonValue),
        (sf.map Prod.fst).Nodup →
        getField sf k = some sv →
        getField (fieldsOf (deepMerge (JsonValue.obj tf) (JsonValue.obj sf))) k
          = some (mergeVal (getField tf k) sv))
    ∧ (∀ (tv : Option JsonValue) (xs : List JsonValue),
        mergeVal tv (JsonValue.arr xs) = JsonValue.arr xs)
    ∧ (∀ (tv : Option JsonValue) (s : String), mergeVal tv (JsonValue.str s) = JsonValue.str s)
    ∧ (∀ sv : JsonValue, mergeVal none sv = sv)
    ∧ deepMerge
        (JsonValue.obj [("clientID", JsonValue.str "abc"),
          ("scope", JsonValue.str "openid profile email")])
        (JsonValue.obj [("clientSecret", JsonValue.str "xyz")])
      = JsonValue.obj [("clientID", JsonValue.str "abc"),
          ("scope", JsonValue.str "openid profile email"),
          ("clientSecret", JsonValue.str "xyz")] := by
  refine ⟨?_, ?_, ?_, ?_, ?_, ?_, ?_, ?_, ?_, ?_, ?_⟩
  · intro t xs; simp [deepMerge]
  · intro t s; simp [deepMerge]
  · intro t n; simp [deepMerge]
  · intro t b; simp [deepMerge]
  · intro tf sf k v h1 h2
    simp only [deepMerge, fieldsOf]
    rw [mergeLoop_getField_none _ _ _ _ h1]
    exact h2
  · intro tf sf tkf skf k hnd h1 h2
    simp only [deepMerge, fieldsOf]
    rw [mergeLoop_getField_some _ _ _ _ _ hnd h2, h1]
    simp [mergeVal, deepMerge, fieldsOf]
  · intro tf sf k sv hnd h
    simp only [deepMerge, fieldsOf]
    rw [mergeLoop_getField_some _ _ _ _ _ hnd h]
  · intro tv xs
    cases tv with
    | none => simp [mergeVal]
    | some tv => cases tv <;> simp [mergeVal]
  · intro tv s
    cases tv with
    | none => simp [mergeVal]
    | some tv => cases tv <;> simp [mergeVal]
  · intro sv
    cases sv <;> simp [mergeVal]
  · simp [deepMerge, mergeLoop, mergeVal, getField, setField, fieldsOf]

/-- Witness for C4: keys present only in the base are retained on a
concrete merge. -/
theorem claim_C4_deep_merge_witness :
    getField (fieldsOf (deepMerge
        (JsonValue.obj [("clientID", JsonValue.str "abc")])
        (JsonValue.obj [("clientSecret", JsonValue.str "xyz")]))) "clientID"
      = some (JsonValue.str "abc") :=
  claim_C4_deep_merge.2.2.2.2.1 [("clientID", JsonValue.str "abc")]
    [("clientSecret", JsonValue.str "xyz")] "clientID" (JsonValue.str "abc")
    (by simp [getField]) (by simp [getField])

/-- Claim C5: any configuration whose `session.secret` has length
strictly less than 16 (the missing secret being the empty string) is
rejected by `validateConfiguration`. -/
theorem claim_C5_short_secret (c : ApplicationConfiguration)
    (h : c.session.secret.length < 16) : validateConfiguration c = false := by
  cases hp : portRejected c.server.port with
  | true => simp [validateConfiguration, hp]
  | false => simp [validateConfiguration, hp, h]

/-- Witness for C5: a five-character secret is rejected. -/
theorem claim_C5_short_secret_witness :
    validateConfiguration
      { cfgValid with session := { cfgValid.session with secret := "short" } } = false :=
  claim_C5_short_secret
    { cfgValid with session := { cfgValid.session with secret := "short" } } (by decide)

/-- Claim C6: with auth enabled, an empty `clientID` or `clientSecret`
makes `validateConfiguration` return false; with auth disabled, both
credentials may be empty and validation succeeds provided the port is a
positive number and the session secret has length at least 16. -/
theorem claim_C6_oidc_credentials (c : ApplicationConfiguration) :
    (c.auth.disabled = false →
      (c.auth.oidc.clientID = "" ∨ c.auth.oidc.clientSecret = "") →
      validateConfiguration c = false)
    ∧ (∀ p : Int, c.auth.disabled = true → c.auth.oidc.clientID = "" →
      c.auth.oidc.clientSecret = "" → c.server.port = some p → 0 < p →
      16 ≤ c.session.secret.length → validateConfiguration c = true) := by
  constructor
  · intro hd hc
    have hcred : (c.auth.oidc.clientID == "" || c.auth.oidc.clientSecret == "") = true := by
      rcases hc with hc | hc <;> simp [hc]
    simp [validateConfiguration, hd, hcred]
  · intro p hd hid hcs hport hp0 hlen
    have h1 : ¬p ≤ 0 := by omega
    have h2 : p ≠ 0 := by omega
    have hne : c.session.secret ≠ "" := by
      intro hh
      rw [hh] at hlen
      simp at hlen
    have hnl : ¬c.session.secret.length < 16 := by omega
    simp [validateConfiguration, portRejected, hport, h1, h2, hd, hne, hnl]

/-- Witness for C6: a configuration with auth enabled and empty
`clientID` fails validation; one with auth disabled and both
credentials empty passes. -/
theorem claim_C6_oidc_credentials_witness :
    validateConfiguration cfgNoClientID = false
    ∧ validateConfiguration cfgDisabledNoCreds = true :=
  ⟨(claim_C6_oidc_credentials cfgNoClientID).1 rfl (Or.inl rfl),
   (claim_C6_oidc_credentials cfgDisabledNoCreds).2 8324 rfl rfl rfl rfl
     (by decide) (by decide)⟩

/-- Claim C7: the Enabled-mode `GET /auth/logout` handler always
destroys the local session; when the discovered issuer metadata
advertises an end-session endpoint it 302-redirects to the provider's
end-session URL carrying the post-logout redirect URI back to this
server's `/auth/logged-out` page, otherwise it 302-redirects to
`/auth/login`; a session-store error during destruction is logged but
does not change the redirect. -/
theorem claim_C7_logout (endpoint : Option String) (protocol host : String) :
    (∀ destroyErr : Bool,
      (logoutHandler true endpoint destroyErr protocol host).sessionDestroyed = true)
    ∧ (∀ (destroyErr : Bool) (ep : String), endpoint = some ep →
        logoutHandler true endpoint destroyErr protocol host
          = { sessionDestroyed := true, destroyErrorLogged := destroyErr, status := 302
              location := endSessionUrl ep (protocol ++ "://" ++ host ++ "/auth/logged-out") })
    ∧ (∀ destroyErr : Bool, endpoint = none →
        logoutHandler true endpoint destroyErr protocol host
          = { sessionDestroyed := true, destroyErrorLogged := destroyErr, status := 302
              location := "/auth/login" })
    ∧ (∀ destroyErr : Bool,
        (logoutHandler true endpoint destroyErr protocol host).status
          = (logoutHandler true endpoint false protocol host).status
        ∧ (logoutHandler true endpoint destroyErr protocol host).location
          = (logoutHandler true endpoint false protocol host).location
        ∧ (logoutHandler true endpoint destroyErr protocol host).destroyErrorLogged
          = destroyErr) := by
  refine ⟨?_, ?_, ?_, ?_⟩
  · intro destroyErr
    cases endpoint <;> simp [logoutHandler]
  · intro destroyErr ep h
    subst h
    simp [logoutHandler]
  · intro destroyErr h
    subst h
    simp [logoutHandler]
  · intro destroyErr
    cases endpoint <;> simp [logoutHandler]

/-- Witness for C7: with an advertised end-session endpoint the logout
redirect targets the provider URL with the post-logout redirect URI,
even when session destruction reported an error. -/
theorem claim_C7_logout_witness :
    logoutHandler true (some "https://issuer.example.com/logout") true "https" "app.example.com"
      = { sessionDestroyed := true, destroyErrorLogged := true, status := 302
          location := endSessionUrl "https://issuer.example.com/logout"
            ("https" ++ "://" ++ "app.example.com" ++ "/auth/logged-out") } :=
  (claim_C7_logout (some "https://issuer.example.com/logout") "https" "app.example.com").2.1
    true "https://issuer.example.com/logout" rfl

/-- Claim C8: `loadConfiguration` is idempotent after its first
successful call: a second call, even against a different environment
and different files and with no intervening reload, returns the same
snapshot and leaves the manager state unchanged. -/
theorem claim_C8_idempotent_load (w₁ w₂ : LoadInputs) (st st' : ManagerState)
    (c : ApplicationConfiguration)
    (h : loadConfigurationSt w₁ st = Except.ok (c, st')) :
    loadConfigurationSt w₂ st' = Except.ok (c, st') := by
  have hc : st'.cached = some c := by
    unfold loadConfigurationSt at h
    cases hst : st.cached with
    | some c₀ =>
      rw [hst] at h
      injection h with h
      injection h with h₁ h₂
      rw [← h₂, hst, h₁]
    | none =>
      rw [hst] at h
      cases hb : w₁.baseResult with
      | none => rw [hb] at h; exact absurd h (by simp)
      | some b =>
        rw [hb] at h
        injection h with h
        injection h with h₁ h₂
        rw [← h₂, h₁]
  unfold loadConfigurationSt
  rw [hc]

/-- Witness for C8: after a first load against an empty environment,
a second load against an environment that now sets `PORT` still
returns the cached snapshot. -/
theorem claim_C8_idempotent_load_witness :
    loadConfigurationSt { env := { Env.empty with PORT := some "9999" }, baseResult := none }
      { cached := some (resolveWithEnv Env.empty cfgValid) }
      = Except.ok (resolveWithEnv Env.empty cfgValid,
          { cached := some (resolveWithEnv Env.empty cfgValid) }) :=
  claim_C8_idempotent_load { env := Env.empty, baseResult := some cfgValid }
    { env := { Env.empty with PORT := some "9999" }, baseResult := none }
    { cached := none } { cached := some (resolveWithEnv Env.empty cfgValid) }
    (resolveWithEnv Env.empty cfgValid) rfl

/-- Counterexample to C9 as stated: in the state where no configuration
has been loaded yet and the base document is missing or unparsable,
`validateConfiguration` does not return a boolean — the loading error
raised by `getConfiguration()` propagates out of it. -/
theorem claim_C9_validate_counterexample :
    validateConfigurationSt { env := Env.empty, baseResult := none } { cached := none }
      = Except.error () := rfl

/-- Claim C9 (amended): the invariant checks themselves never throw:
whenever a configuration snapshot is already cached — as is the case in
the startup sequence, which calls `loadConfiguration()` first — or the
base document loads successfully, `validateConfiguration` returns a
boolean; only in the unloaded state with an unreadable base document
does it propagate the loading error of `getConfiguration()`. -/
theorem claim_C9_validate_amended (w : LoadInputs) (st : ManagerState) :
    (∀ c, st.cached = some c →
      validateConfigurationSt w st = Except.ok (validateConfiguration c, st))
    ∧ (∀ b, st.cached = none → w.baseResult = some b →
      validateConfigurationSt w st
        = Except.ok (validateConfiguration (resolveWithEnv w.env b),
            { cached := some (resolveWithEnv w.env b) })) := by
  constructor
  · intro c hc
    simp [validateConfigurationSt, getConfigurationSt, hc]
  · intro b hc hb
    simp [validateConfigurationSt, getConfigurationSt, loadConfigurationSt, hc, hb]

/-- Witness for the amended C9: with a cached snapshot present,
`validateConfiguration` returns a boolean verdict. -/
theorem claim_C9_validate_amended_witness :
    validateConfigurationSt { env := Env.empty, baseResult := none } { cached := some cfgValid }
      = Except.ok (validateConfiguration cfgValid, { cached := some cfgValid }) :=
  (claim_C9_validate_amended { env := Env.empty, baseResult := none }
    { cached := some cfgValid }).1 cfgValid rfl

/-- Counterexample to C10 as stated: `PORT` set to the empty string is
set to a string that does not parse as a number, yet the resolved port
falls back to the base document's port instead of becoming NaN
(the `process.env.PORT ?` truthiness test treats `""` as unset). -/
theorem claim_C10_port_counterexample :
    parseIntBase10 "" = none
    ∧ (resolveWithEnv { Env.empty with PORT := some "" } cfgValid).server.port = some 8324 := by
  refine ⟨rfl, by decide⟩

/-- Claim C10 (amended): if `PORT` is set to a non-empty string that
does not parse as a number, the resolved `server.port` is NaN rather
than the base document's port, and `validateConfiguration` rejects the
resolved configuration, so startup aborts; only the empty string falls
back to the base document's port. -/
theorem claim_C10_port_nan_amended (e : Env) (b : ApplicationConfiguration) (s : String)
    (hset : e.PORT = some s) (hne : s ≠ "") (hparse : parseIntBase10 s = none) :
    (resolveWithEnv e b).server.port = none
    ∧ validateConfiguration (resolveWithEnv e b) = false := by
  have hempty : s.isEmpty = false := by
    cases hh : s.isEmpty
    · rfl
    · exact absurd (String.isEmpty_iff s |>.mp hh) hne
  have hport : (resolveWithEnv e b).server.port = none := by
    simp [resolveWithEnv, hset, hempty, hparse]
  refine ⟨hport, ?_⟩
  simp [validateConfiguration, portRejected, hport]

/-- Witness for the amended C10: `PORT=abc` resolves the port to NaN
and validation fails. -/
theorem claim_C10_port_nan_amended_witness :
    (resolveWithEnv { Env.empty with PORT := some "abc" } cfgValid).server.port = none
    ∧ validateConfiguration (resolveWithEnv { Env.empty with PORT := some "abc" } cfgValid)
      = false :=
  claim_C10_port_nan_amended { Env.empty with PORT := some "abc" } cfgValid "abc"
    rfl (by decide) (by decide)

end AabReactExpress
